import Mathlib

/-!
Verification of the `alanlvle/statsmodels` documentation repository.

The repository holds three files under `docs/source2/`:

* `examples/notebooks/generated/statespace_varmax.ipynb` - a tutorial
  notebook on VARMAX models (13 cells, 7 of them code cells);
* `generated/statsmodels.tsa.vector_ar.var_model.VAR.rst` - an
  auto-generated API stub for the `VAR` class;
* `generated/statsmodels.miscmodels.count.PoissonZiGMLE.rst` - an
  auto-generated API stub for the `PoissonZiGMLE` class.

The notebook JSON is embedded below cell by cell: cell type, execution
count, source lines and recorded outputs are transcribed verbatim from
the file (each JSON line has its trailing newline character dropped, so
a cell source is its list of logical lines).  The only elision is the
base64 payload of the single `image/png` display output, which is a
pre-rendered bitmap no claim depends on; its `text/plain` companion is
kept.  The two RST files are embedded as their exact lists of lines.
Apostrophes and braces inside string literals are written with `\x`
escapes; the denoted strings are unchanged.

All checks are executable and are settled by kernel evaluation over
this data.
-/

set_option maxRecDepth 100000

namespace StatsmodelsDocs

/-- Kinds of notebook cells occurring in the file. -/
inductive CellType
  | markdown
  | code
deriving DecidableEq

/-- Recorded output of a code cell: either a `stream` output (the
`channel` is `stdout` or `stderr`) or a rich display output, kept as
its `text/plain` rendering. -/
inductive NbOutput
  | stream (channel : String) (text : List String)
  | displayData (textPlain : List String)

/-- One notebook cell, as stored in the ipynb JSON. -/
structure NbCell where
  cellType : CellType
  executionCount : Option Nat
  source : List String
  outputs : List NbOutput


/-- Decides whether `pat` is a prefix of the character list `rest`:
an empty pattern always matches, and a nonempty one needs a matching
head and a matching continuation. -/
def charsPrefixOf (pat rest : List Char) : Bool :=
  match pat, rest with
  | p :: ps, r :: rs => p == r && charsPrefixOf ps rs
  | [], _ => true
  | _, [] => false

/-- Decides whether `pat` occurs as a contiguous sublist. -/
def subOccurs (pat : List Char) : List Char → Bool
  | [] => charsPrefixOf pat []
  | c :: cs => charsPrefixOf pat (c :: cs) || subOccurs pat cs

/-- Decides whether `pat` occurs as a substring of `s`. -/
def containsSubstr (s pat : String) : Bool :=
  subOccurs pat.data s.data

/-- Decides whether `pat` is a prefix of `s`. -/
def startsWithStr (s pat : String) : Bool :=
  charsPrefixOf pat.data s.data

/-- Characters that follow the first occurrence of `pat`, if any. -/
def afterFirst (pat : List Char) : List Char → Option (List Char)
  | [] => none
  | c :: cs =>
    if charsPrefixOf pat (c :: cs) then some (List.drop pat.length (c :: cs))
    else afterFirst pat cs

/-- Drops leading blanks of a line. -/
def dropLeadingSpaces : List Char → List Char
  | ' ' :: cs => dropLeadingSpaces cs
  | cs => cs

/-- The line with its leading blanks removed. -/
def lstrip (s : String) : String :=
  String.mk (dropLeadingSpaces s.data)

/-- A horizontal rule: `n` copies of the character `c`.  The recorded
summary tables and the RST title underlines contain such lines; they
are embedded through this abbreviation, denoting exactly the run of
characters printed in the file. -/
def rule (c : Char) (n : Nat) : String :=
  String.mk (List.replicate n c)

/-- The cells of `statespace_varmax.ipynb`, transcribed from the file. -/
def statespace_varmax : List NbCell := [
  { cellType := .markdown,
    executionCount := none,
    source :=
      [ "# VARMAX models",
                "",
                "This is a brief introduction notebook to VARMAX models in statsmodels. The VARMAX model is generically specified as:",
                "$$",
                "y_t = \\nu + A_1 y_\x7bt-1\x7d + \\dots + A_p y_\x7bt-p\x7d + B x_t + \\epsilon_t +",
                "M_1 \\epsilon_\x7bt-1\x7d + \\dots M_q \\epsilon_\x7bt-q\x7d",
                "$$",
                "",
                "where $y_t$ is a $\\text\x7bk_endog\x7d \\times 1$ vector." ],
    outputs :=
      [] },
  { cellType := .code,
    executionCount := some 1,
    source :=
      [ "%matplotlib inline" ],
    outputs :=
      [] },
  { cellType := .code,
    executionCount := some 2,
    source :=
      [ "import numpy as np",
                "import pandas as pd",
                "import statsmodels.api as sm",
                "import matplotlib.pyplot as plt" ],
    outputs :=
      [] },
  { cellType := .code,
    executionCount := some 3,
    source :=
      [ "dta = sm.datasets.webuse(\x27lutkepohl2\x27, \x27https://www.stata-press.com/data/r12/\x27)",
                "dta.index = dta.qtr",
                "endog = dta.loc[\x271960-04-01\x27:\x271978-10-01\x27, [\x27dln_inv\x27, \x27dln_inc\x27, \x27dln_consump\x27]]" ],
    outputs :=
      [] },
  { cellType := .markdown,
    executionCount := none,
    source :=
      [ "## Model specification",
                "",
                "The `VARMAX` class in statsmodels allows estimation of VAR, VMA, and VARMA models (through the `order` argument), optionally with a constant term (via the `trend` argument). Exogenous regressors may also be included (as usual in statsmodels, by the `exog` argument), and in this way a time trend may be added. Finally, the class allows measurement error (via the `measurement_error` argument) and allows specifying either a diagonal or unstructured innovation covariance matrix (via the `error_cov_type` argument)." ],
    outputs :=
      [] },
  { cellType := .markdown,
    executionCount := none,
    source :=
      [ "## Example 1: VAR",
                "",
                "Below is a simple VARX(2) model in two endogenous variables and an exogenous series, but no constant term. Notice that we needed to allow for more iterations than the default (which is `maxiter=50`) in order for the likelihood estimation to converge. This is not unusual in VAR models which have to estimate a large number of parameters, often on a relatively small number of time series: this model, for example, estimates 27 parameters off of 75 observations of 3 variables." ],
    outputs :=
      [] },
  { cellType := .code,
    executionCount := some 4,
    source :=
      [ "exog = endog[\x27dln_consump\x27]",
                "mod = sm.tsa.VARMAX(endog[[\x27dln_inv\x27, \x27dln_inc\x27]], order=(2,0), trend=\x27n\x27, exog=exog)",
                "res = mod.fit(maxiter=1000, disp=False)",
                "print(res.summary())" ],
    outputs :=
      [ .stream "stderr"
        [ "C:\\ProgramData\\Anaconda3\\lib\\site-packages\\statsmodels\\tsa\\base\\tsa_model.py:165: ValueWarning: No frequency information was provided, so inferred frequency QS-OCT will be used.",
          "  % freq, ValueWarning)" ],
      .stream "stdout"
        [ "                             Statespace Model Results                             ",
          rule '=' 82,
          "Dep. Variable:     [\x27dln_inv\x27, \x27dln_inc\x27]   No. Observations:                   75",
          "Model:                            VARX(2)   Log Likelihood                 361.038",
          "Date:                    Tue, 24 Dec 2019   AIC                           -696.075",
          "Time:                            15:05:43   BIC                           -665.948",
          "Sample:                        04-01-1960   HQIC                          -684.046",
          "                             - 10-01-1978                                         ",
          "Covariance Type:                      opg                                         ",
          rule '=' 83,
          "Ljung-Box (Q):                61.32, 39.29   Jarque-Bera (JB):          11.38, 2.39",
          "Prob(Q):                        0.02, 0.50   Prob(JB):                   0.00, 0.30",
          "Heteroskedasticity (H):         0.45, 0.40   Skew:                      0.16, -0.38",
          "Prob(H) (two-sided):            0.05, 0.03   Kurtosis:                   4.88, 3.44",
          "                            Results for equation dln_inv                            ",
          rule '=' 84,
          "                       coef    std err          z      P>|z|      [0.025      0.975]",
          rule '-' 84,
          "L1.dln_inv          -0.2396      0.093     -2.575      0.010      -0.422      -0.057",
          "L1.dln_inc           0.2937      0.449      0.654      0.513      -0.586       1.174",
          "L2.dln_inv          -0.1650      0.155     -1.063      0.288      -0.469       0.139",
          "L2.dln_inc           0.0834      0.422      0.198      0.843      -0.744       0.911",
          "beta.dln_consump     0.9441      0.640      1.476      0.140      -0.310       2.198",
          "                            Results for equation dln_inc                            ",
          rule '=' 84,
          "                       coef    std err          z      P>|z|      [0.025      0.975]",
          rule '-' 84,
          "L1.dln_inv           0.0634      0.036      1.775      0.076      -0.007       0.134",
          "L1.dln_inc           0.0835      0.107      0.779      0.436      -0.126       0.293",
          "L2.dln_inv           0.0105      0.033      0.318      0.750      -0.054       0.075",
          "L2.dln_inc           0.0365      0.134      0.272      0.786      -0.227       0.300",
          "beta.dln_consump     0.7688      0.112      6.848      0.000       0.549       0.989",
          "                                  Error covariance matrix                                   ",
          rule '=' 92,
          "                               coef    std err          z      P>|z|      [0.025      0.975]",
          rule '-' 92,
          "sqrt.var.dln_inv             0.0434      0.004     12.284      0.000       0.036       0.050",
          "sqrt.cov.dln_inv.dln_inc  5.848e-05      0.002      0.029      0.977      -0.004       0.004",
          "sqrt.var.dln_inc             0.0109      0.001     11.226      0.000       0.009       0.013",
          rule '=' 92,
          "",
          "Warnings:",
          "[1] Covariance matrix calculated using the outer product of gradients (complex-step)." ] ] },
  { cellType := .markdown,
    executionCount := none,
    source :=
      [ "From the estimated VAR model, we can plot the impulse response functions of the endogenous variables." ],
    outputs :=
      [] },
  { cellType := .code,
    executionCount := some 5,
    source :=
      [ "ax = res.impulse_responses(10, orthogonalized=True).plot(figsize=(13,3))",
                "ax.set(xlabel=\x27t\x27, title=\x27Responses to a shock to `dln_inv`\x27);" ],
    outputs :=
      [ .displayData [ "<Figure size 936x216 with 1 Axes>" ] ] },
  { cellType := .markdown,
    executionCount := none,
    source :=
      [ "## Example 2: VMA",
                "",
                "A vector moving average model can also be formulated. Below we show a VMA(2) on the same data, but where the innovations to the process are uncorrelated. In this example we leave out the exogenous regressor but now include the constant term." ],
    outputs :=
      [] },
  { cellType := .code,
    executionCount := some 6,
    source :=
      [ "mod = sm.tsa.VARMAX(endog[[\x27dln_inv\x27, \x27dln_inc\x27]], order=(0,2), error_cov_type=\x27diagonal\x27)",
                "res = mod.fit(maxiter=1000, disp=False)",
                "print(res.summary())" ],
    outputs :=
      [ .stream "stderr"
        [ "C:\\ProgramData\\Anaconda3\\lib\\site-packages\\statsmodels\\tsa\\base\\tsa_model.py:165: ValueWarning: No frequency information was provided, so inferred frequency QS-OCT will be used.",
          "  % freq, ValueWarning)" ],
      .stream "stdout"
        [ "                             Statespace Model Results                             ",
          rule '=' 82,
          "Dep. Variable:     [\x27dln_inv\x27, \x27dln_inc\x27]   No. Observations:                   75",
          "Model:                             VMA(2)   Log Likelihood                 353.887",
          "                              + intercept   AIC                           -683.775",
          "Date:                    Tue, 24 Dec 2019   BIC                           -655.965",
          "Time:                            15:05:52   HQIC                          -672.671",
          "Sample:                        04-01-1960                                         ",
          "                             - 10-01-1978                                         ",
          "Covariance Type:                      opg                                         ",
          rule '=' 83,
          "Ljung-Box (Q):                68.79, 39.25   Jarque-Bera (JB):         12.51, 13.94",
          "Prob(Q):                        0.00, 0.50   Prob(JB):                   0.00, 0.00",
          "Heteroskedasticity (H):         0.44, 0.81   Skew:                      0.05, -0.49",
          "Prob(H) (two-sided):            0.04, 0.59   Kurtosis:                   5.00, 4.87",
          "                           Results for equation dln_inv                          ",
          rule '=' 81,
          "                    coef    std err          z      P>|z|      [0.025      0.975]",
          rule '-' 81,
          "intercept         0.0182      0.005      3.812      0.000       0.009       0.028",
          "L1.e(dln_inv)    -0.2616      0.106     -2.478      0.013      -0.468      -0.055",
          "L1.e(dln_inc)     0.5085      0.630      0.807      0.420      -0.726       1.743",
          "L2.e(dln_inv)     0.0317      0.148      0.214      0.831      -0.259       0.322",
          "L2.e(dln_inc)     0.1905      0.476      0.400      0.689      -0.742       1.123",
          "                           Results for equation dln_inc                          ",
          rule '=' 81,
          "                    coef    std err          z      P>|z|      [0.025      0.975]",
          rule '-' 81,
          "intercept         0.0207      0.002     13.018      0.000       0.018       0.024",
          "L1.e(dln_inv)     0.0476      0.042      1.141      0.254      -0.034       0.129",
          "L1.e(dln_inc)    -0.0709      0.140     -0.505      0.614      -0.346       0.204",
          "L2.e(dln_inv)     0.0181      0.042      0.427      0.670      -0.065       0.101",
          "L2.e(dln_inc)     0.1246      0.154      0.811      0.417      -0.177       0.426",
          "                             Error covariance matrix                              ",
          rule '=' 82,
          "                     coef    std err          z      P>|z|      [0.025      0.975]",
          rule '-' 82,
          "sigma2.dln_inv     0.0020      0.000      7.359      0.000       0.001       0.003",
          "sigma2.dln_inc     0.0001   2.33e-05      5.829      0.000       9e-05       0.000",
          rule '=' 82,
          "",
          "Warnings:",
          "[1] Covariance matrix calculated using the outer product of gradients (complex-step)." ] ] },
  { cellType := .markdown,
    executionCount := none,
    source :=
      [ "## Caution: VARMA(p,q) specifications",
                "",
                "Although the model allows estimating VARMA(p,q) specifications, these models are not identified without additional restrictions on the representation matrices, which are not built-in. For this reason, it is recommended that the user proceed with error (and indeed a warning is issued when these models are specified). Nonetheless, they may in some circumstances provide useful information." ],
    outputs :=
      [] },
  { cellType := .code,
    executionCount := some 7,
    source :=
      [ "mod = sm.tsa.VARMAX(endog[[\x27dln_inv\x27, \x27dln_inc\x27]], order=(1,1))",
                "res = mod.fit(maxiter=1000, disp=False)",
                "print(res.summary())" ],
    outputs :=
      [ .stream "stderr"
        [ "C:\\ProgramData\\Anaconda3\\lib\\site-packages\\statsmodels\\tsa\\statespace\\varmax.py:159: EstimationWarning: Estimation of VARMA(p,q) models is not generically robust, due especially to identification issues.",
          "  EstimationWarning)",
          "C:\\ProgramData\\Anaconda3\\lib\\site-packages\\statsmodels\\tsa\\base\\tsa_model.py:165: ValueWarning: No frequency information was provided, so inferred frequency QS-OCT will be used.",
          "  % freq, ValueWarning)" ],
      .stream "stdout"
        [ "                             Statespace Model Results                             ",
          rule '=' 82,
          "Dep. Variable:     [\x27dln_inv\x27, \x27dln_inc\x27]   No. Observations:                   75",
          "Model:                         VARMA(1,1)   Log Likelihood                 354.284",
          "                              + intercept   AIC                           -682.567",
          "Date:                    Tue, 24 Dec 2019   BIC                           -652.440",
          "Time:                            15:05:56   HQIC                          -670.538",
          "Sample:                        04-01-1960                                         ",
          "                             - 10-01-1978                                         ",
          "Covariance Type:                      opg                                         ",
          rule '=' 83,
          "Ljung-Box (Q):                68.75, 39.04   Jarque-Bera (JB):         10.79, 14.11",
          "Prob(Q):                        0.00, 0.51   Prob(JB):                   0.00, 0.00",
          "Heteroskedasticity (H):         0.43, 0.91   Skew:                      0.00, -0.46",
          "Prob(H) (two-sided):            0.04, 0.81   Kurtosis:                   4.86, 4.92",
          "                           Results for equation dln_inv                          ",
          rule '=' 81,
          "                    coef    std err          z      P>|z|      [0.025      0.975]",
          rule '-' 81,
          "intercept         0.0110      0.068      0.162      0.872      -0.122       0.144",
          "L1.dln_inv       -0.0087      0.719     -0.012      0.990      -1.419       1.401",
          "L1.dln_inc        0.3609      2.844      0.127      0.899      -5.213       5.935",
          "L1.e(dln_inv)    -0.2508      0.731     -0.343      0.731      -1.683       1.182",
          "L1.e(dln_inc)     0.1263      3.086      0.041      0.967      -5.922       6.175",
          "                           Results for equation dln_inc                          ",
          rule '=' 81,
          "                    coef    std err          z      P>|z|      [0.025      0.975]",
          rule '-' 81,
          "intercept         0.0165      0.029      0.580      0.562      -0.039       0.072",
          "L1.dln_inv       -0.0334      0.286     -0.117      0.907      -0.595       0.528",
          "L1.dln_inc        0.2318      1.160      0.200      0.842      -2.042       2.506",
          "L1.e(dln_inv)     0.0887      0.293      0.303      0.762      -0.485       0.663",
          "L1.e(dln_inc)    -0.2359      1.192     -0.198      0.843      -2.573       2.101",
          "                                  Error covariance matrix                                   ",
          rule '=' 92,
          "                               coef    std err          z      P>|z|      [0.025      0.975]",
          rule '-' 92,
          "sqrt.var.dln_inv             0.0449      0.003     14.533      0.000       0.039       0.051",
          "sqrt.cov.dln_inv.dln_inc     0.0017      0.003      0.646      0.518      -0.003       0.007",
          "sqrt.var.dln_inc             0.0116      0.001     11.662      0.000       0.010       0.013",
          rule '=' 92,
          "",
          "Warnings:",
          "[1] Covariance matrix calculated using the outer product of gradients (complex-step)." ] ] }
]

/-- The lines of `statsmodels.tsa.vector_ar.var_model.VAR.rst`. -/
def var_model_VAR_rst : List String :=
  [ "statsmodels.tsa.vector\\_ar.var\\_model.VAR",
    rule '=' 41,
    "",
    ".. currentmodule:: statsmodels.tsa.vector_ar.var_model",
    "",
    ".. autoclass:: VAR",
    "   :exclude-members:",
    "",
    "   ",
    "   ",
    "   .. rubric:: Methods",
    "",
    "   .. autosummary::",
    "      :toctree: generated/",
    "",
    "      ~VAR.fit",
    "      ~VAR.from_formula",
    "      ~VAR.hessian",
    "      ~VAR.information",
    "      ~VAR.initialize",
    "      ~VAR.loglike",
    "      ~VAR.predict",
    "      ~VAR.score",
    "      ~VAR.select_order",
    "   ",
    "   ",
    "   ",
    "   ",
    "   ",
    "   .. rubric:: Properties",
    "",
    "   .. autosummary::",
    "      :toctree: generated/",
    "",
    "      ~VAR.endog_names",
    "      ~VAR.exog_names",
    "      ~VAR.y",
    "   ",
    "   ",
    "   " ]

/-- The lines of `statsmodels.miscmodels.count.PoissonZiGMLE.rst`. -/
def count_PoissonZiGMLE_rst : List String :=
  [ "statsmodels.miscmodels.count.PoissonZiGMLE",
    rule '=' 42,
    "",
    ".. currentmodule:: statsmodels.miscmodels.count",
    "",
    ".. autoclass:: PoissonZiGMLE",
    "   :exclude-members:",
    "",
    "   ",
    "   ",
    "   .. rubric:: Methods",
    "",
    "   .. autosummary::",
    "      :toctree: generated/",
    "",
    "      ~PoissonZiGMLE.expandparams",
    "      ~PoissonZiGMLE.fit",
    "      ~PoissonZiGMLE.from_formula",
    "      ~PoissonZiGMLE.hessian",
    "      ~PoissonZiGMLE.hessian_factor",
    "      ~PoissonZiGMLE.information",
    "      ~PoissonZiGMLE.initialize",
    "      ~PoissonZiGMLE.loglike",
    "      ~PoissonZiGMLE.loglikeobs",
    "      ~PoissonZiGMLE.nloglike",
    "      ~PoissonZiGMLE.nloglikeobs",
    "      ~PoissonZiGMLE.predict",
    "      ~PoissonZiGMLE.reduceparams",
    "      ~PoissonZiGMLE.score",
    "      ~PoissonZiGMLE.score_obs",
    "   ",
    "   ",
    "   ",
    "   ",
    "   ",
    "   .. rubric:: Properties",
    "",
    "   .. autosummary::",
    "      :toctree: generated/",
    "",
    "      ~PoissonZiGMLE.endog_names",
    "      ~PoissonZiGMLE.exog_names",
    "   ",
    "   ",
    "   " ]

/-- Content of a repository file: the parsed notebook or the lines of
an RST stub. -/
inductive FileContent
  | notebook (cells : List NbCell)
  | rst (lines : List String)

/-- One file of the repository. -/
structure RepoFile where
  path : String
  content : FileContent

/-- The three files supplied by the repository. -/
def repository : List RepoFile :=
  [ { path := "docs/source2/examples/notebooks/generated/statespace_varmax.ipynb",
      content := .notebook statespace_varmax },
    { path := "docs/source2/generated/statsmodels.tsa.vector_ar.var_model.VAR.rst",
      content := .rst var_model_VAR_rst },
    { path := "docs/source2/generated/statsmodels.miscmodels.count.PoissonZiGMLE.rst",
      content := .rst count_PoissonZiGMLE_rst } ]

/-- The code cells of the notebook, in document order. -/
def codeCells : List NbCell :=
  statespace_varmax.filter (fun c => c.cellType == CellType.code)

/-- All source lines of the notebook code cells, in document order. -/
def codeLines : List String :=
  codeCells.flatMap (fun c => c.source)

/-- All source lines of the notebook markdown cells, in document order. -/
def markdownLines : List String :=
  (statespace_varmax.filter (fun c => c.cellType == CellType.markdown)).flatMap
    (fun c => c.source)

/-- Decides whether a line introduces a Python function or class
definition (including lambdas). -/
def isDefLine (l : String) : Bool :=
  let t := lstrip l
  startsWithStr t "def " || startsWithStr t "class " ||
  startsWithStr t "async def " || containsSubstr t "lambda"

/-- Decides whether a line starts a Python control-flow construct. -/
def isControlFlowLine (l : String) : Bool :=
  let t := lstrip l
  startsWithStr t "for " || startsWithStr t "while " ||
  startsWithStr t "if " || startsWithStr t "elif " ||
  startsWithStr t "else" || startsWithStr t "try" ||
  startsWithStr t "except" || startsWithStr t "finally" ||
  startsWithStr t "with " || startsWithStr t "return" ||
  startsWithStr t "raise" || startsWithStr t "yield" ||
  startsWithStr t "break" || startsWithStr t "continue" ||
  startsWithStr t "match "

/-- A line is logic-free when it neither defines a routine nor starts a
control-flow construct. -/
def lineIsLogicFree (l : String) : Bool :=
  !(isDefLine l || isControlFlowLine l)

/-- All text lines of a repository file: cell source lines for the
notebook, the raw lines for an RST stub. -/
def fileLines : RepoFile → List String
  | ⟨_, .notebook cells⟩ => cells.flatMap (fun c => c.source)
  | ⟨_, .rst ls⟩ => ls

/-- Every line of the file is logic-free. -/
def fileLogicFree (f : RepoFile) : Bool :=
  (fileLines f).all lineIsLogicFree

/-- Decides whether a line defines a routine (function or class). -/
def definesRoutine (l : String) : Bool :=
  let t := lstrip l
  startsWithStr t "def " || startsWithStr t "class "

/-- No file of the repository defines any function or class. -/
def repoDefinesNoRoutine : Bool :=
  repository.all (fun f => (fileLines f).all (fun l => !definesRoutine l))

/-- External library roots visible in the notebook's import cell:
statsmodels as `sm`, numpy as `np`, pandas as `pd`, matplotlib.pyplot
as `plt`. -/
def externalRoots : List String :=
  ["sm.", "np.", "pd.", "plt."]

/-- Names the notebook binds to values obtained from the external
libraries (dataset, series, model, results, axes). -/
def boundNames : List String :=
  ["dta", "endog", "exog", "mod", "res", "ax"]

/-- The right-hand side of a top-level Python assignment, or the whole
line when it is not an assignment. -/
def rhsOf (l : String) : String :=
  match afterFirst (" = ".data) l.data with
  | some r => String.mk r
  | none => l

/-- Decides whether a code line resolves entirely through the external
libraries: it is a cell magic, an import, or an expression rooted at an
external namespace, at a name bound to an external result, or at
`print`. -/
def resolvesExternally (l : String) : Bool :=
  startsWithStr l "%" || startsWithStr l "import " ||
  (let r := rhsOf l
   externalRoots.any (fun p => startsWithStr r p) ||
   boundNames.any (fun n => startsWithStr r n) ||
   startsWithStr r "print(")

end StatsmodelsDocs

namespace StatsmodelsDocs

/-- The entry marker of an autosummary line for class `cls`: six
blanks, a tilde, the class name and a dot. -/
def entryMark (cls : String) : List Char :=
  ("      ~" ++ cls ++ ".").data

/-- Decides whether a line is an autosummary entry for class `cls`. -/
def isEntryLine (cls l : String) : Bool :=
  charsPrefixOf (entryMark cls) l.data

/-- The member name carried by an autosummary entry line. -/
def entryName (cls l : String) : String :=
  String.mk (List.drop (entryMark cls).length l.data)

/-- The rubric header line of an RST stub for rubric `r`. -/
def rubricLine (r : String) : String :=
  "   .. rubric:: " ++ r

/-- Member names listed under rubric `r` for class `cls`: a rubric
header opens (or closes) the section, entry lines inside it are
collected. -/
def collectEntries (cls r : String) : List String → Bool → List String
  | [], _ => []
  | l :: ls, inSec =>
    if containsSubstr l ".. rubric::" then
      collectEntries cls r ls (l == rubricLine r)
    else if inSec && isEntryLine cls l then
      entryName cls l :: collectEntries cls r ls inSec
    else
      collectEntries cls r ls inSec

/-- Method names listed by an RST stub for class `cls`. -/
def rstMethods (cls : String) (ls : List String) : List String :=
  collectEntries cls "Methods" ls false

/-- Property names listed by an RST stub for class `cls`. -/
def rstProperties (cls : String) (ls : List String) : List String :=
  collectEntries cls "Properties" ls false

/-- Decides whether an RST line is pure listing scaffolding for class
`cls`: blank, title or underline, a Sphinx directive of the generated
stub layout, or an autosummary entry for `cls`. -/
def isRstScaffold (cls l : String) : Bool :=
  dropLeadingSpaces l.data == [] ||
  startsWithStr l "statsmodels." ||
  startsWithStr l "=" ||
  startsWithStr l ".. currentmodule::" ||
  l == ".. autoclass:: " ++ cls ||
  lstrip l == ":exclude-members:" ||
  startsWithStr (lstrip l) ".. rubric::" ||
  lstrip l == ".. autosummary::" ||
  lstrip l == ":toctree: generated/" ||
  isEntryLine cls l

/-- Decides whether a file is the notebook. -/
def isNotebookFile (f : RepoFile) : Bool :=
  match f.content with
  | .notebook _ => true
  | .rst _ => false

/-- Decides whether a code line constructs a VARMAX model from the
endogenous data with an order parameter. -/
def lineConstructsModel (l : String) : Bool :=
  containsSubstr l "sm.tsa.VARMAX(" && containsSubstr l "endog" &&
  containsSubstr l "order=("

/-- Decides whether a code line invokes the fit routine with maxiter
and disp options. -/
def lineFitsModel (l : String) : Bool :=
  containsSubstr l ".fit(" && containsSubstr l "maxiter=" &&
  containsSubstr l "disp="

/-- Decides whether a code line requests summary output. -/
def lineShowsSummary (l : String) : Bool :=
  containsSubstr l ".summary()"

/-- Decides whether a code line requests impulse-response output. -/
def lineShowsImpulse (l : String) : Bool :=
  containsSubstr l ".impulse_responses("

/-- Phase machine over the lines of a cell: phase 0 awaits the model
construction, phase 1 awaits the fit invocation, phase 2 awaits a
summary or impulse-response request; it succeeds only when the three
appear in this order. -/
def constructFitShow : List String → Nat → Bool
  | [], _ => false
  | l :: ls, 0 => constructFitShow ls (if lineConstructsModel l then 1 else 0)
  | l :: ls, 1 => constructFitShow ls (if lineFitsModel l then 2 else 1)
  | l :: ls, n + 2 =>
    lineShowsSummary l || lineShowsImpulse l || constructFitShow ls (n + 2)

/-- Decides whether a code cell is an estimation example, i.e.
constructs a VARMAX model. -/
def isEstimationCell (c : NbCell) : Bool :=
  c.source.any (fun l => containsSubstr l "sm.tsa.VARMAX(")

/-- Every occurrence of `pat` in the character list is immediately
followed by one of the `allowed` continuations. -/
def occurrencesFollowedBy (pat : List Char) (allowed : List (List Char)) :
    List Char → Bool
  | [] => true
  | c :: cs =>
    (!(charsPrefixOf pat (c :: cs)) ||
      allowed.any (fun a => charsPrefixOf a (List.drop pat.length (c :: cs)))) &&
    occurrencesFollowedBy pat allowed cs

/-- Decides whether a line touches the model and results objects only
through the demonstrated interface: `fit` on the model, `summary` and
`impulse_responses` on the results. -/
def modelInterfaceOnly (l : String) : Bool :=
  occurrencesFollowedBy ("mod.".data) [("fit(".data)] l.data &&
  occurrencesFollowedBy ("res.".data)
    [("summary()".data), ("impulse_responses(".data)] l.data

end StatsmodelsDocs

namespace StatsmodelsDocs

/-- Numeric value of a decimal digit character. -/
def digitVal (c : Char) : Option Nat :=
  if '0' ≤ c && c ≤ '9' then some (c.toNat - 48) else none

/-- Parses the two single-digit components `p` and `q` of an order
argument, given the characters that follow `order=(`. -/
def parseOrderComps : List Char → Option (Nat × Nat)
  | d1 :: ',' :: d2 :: ')' :: _ =>
    match digitVal d1, digitVal d2 with
    | some p, some q => some (p, q)
    | _, _ => none
  | _ => none

/-- The `(p,q)` order a code line passes to the model constructor, if
the line carries an `order=(p,q)` argument. -/
def parseOrder (l : String) : Option (Nat × Nat) :=
  match afterFirst ("order=(".data) l.data with
  | some rest => parseOrderComps rest
  | none => none

/-- The first `(p,q)` order appearing in the cell's source. -/
def cellOrder (c : NbCell) : Option (Nat × Nat) :=
  (c.source.filterMap parseOrder).head?

/-- The recorded stderr lines of a cell. -/
def cellStderrLines (c : NbCell) : List String :=
  c.outputs.flatMap (fun o =>
    match o with
    | .stream ch text => if ch == "stderr" then text else []
    | .displayData _ => [])

/-- The cell's recorded stderr mentions the identifiability warning. -/
def cellHasEstimationWarning (c : NbCell) : Bool :=
  (cellStderrLines c).any (fun l => containsSubstr l "EstimationWarning")

/-- The cell's recorded stderr mentions the frequency-inference
warning. -/
def cellHasValueWarning (c : NbCell) : Bool :=
  (cellStderrLines c).any (fun l => containsSubstr l "ValueWarning")

/-- Decides whether an output line reports a Python warning: the
emission format of the warnings module places the warning class name
followed by a colon and a blank on the line. -/
def isWarningLine (l : String) : Bool :=
  containsSubstr l "Warning: "

/-- Decides whether a warning line reports one of the two warning
classes recorded by the notebook. -/
def warningRecognized (l : String) : Bool :=
  containsSubstr l "ValueWarning" || containsSubstr l "EstimationWarning"

/-- Warning lines are admissible in an output only on the stderr
channel, and there only when they report a recognized class. -/
def outputWarningsOk : NbOutput → Bool
  | .stream ch text =>
    text.all (fun l => !isWarningLine l || (ch == "stderr" && warningRecognized l))
  | .displayData text => text.all (fun l => !isWarningLine l)

/-- All warning lines recorded on stderr across the notebook. -/
def stderrWarningLines : List String :=
  statespace_varmax.flatMap (fun c => (cellStderrLines c).filter isWarningLine)

/-- Decides whether a line installs error handling: it raises, enters a
try/except construct, or reproduces a traceback. -/
def definesErrorHandling (l : String) : Bool :=
  let t := lstrip l
  startsWithStr t "raise" || startsWithStr t "try" ||
  startsWithStr t "except" || containsSubstr l "Traceback"

/-- Decides whether a markdown line states the fit default the spec
points at (`maxiter=50`). -/
def assertsFitDefault (l : String) : Bool :=
  containsSubstr l "maxiter=50"

/-- Decides whether a markdown line states that a warning is issued for
VARMA(p,q) specifications. -/
def assertsWarningIssued (l : String) : Bool :=
  containsSubstr l "warning is issued"

end StatsmodelsDocs

namespace StatsmodelsDocs

/-- C1: every supplied file (the notebook and the two RST stubs)
contains no executable implementation logic - no function or class
definition, no lambda, and no control-flow construct on any of its
lines - and the notebook's code cells consist solely of straight-line
calls into the external libraries. -/
theorem supplied_files_contain_no_executable_logic :
    repository.all fileLogicFree = true ∧
    codeLines.all resolvesExternally = true := by
  decide

/-- C2: the repository consists of exactly the tutorial notebook and
two auto-generated API stubs, one for the `VAR` class and one for the
`PoissonZiGMLE` class, and each stub's content is pure listing
scaffolding whose entries are that class's method and property
names. -/
theorem repository_is_notebook_plus_two_stubs :
    repository.map (fun f => f.path) =
      [ "docs/source2/examples/notebooks/generated/statespace_varmax.ipynb",
        "docs/source2/generated/statsmodels.tsa.vector_ar.var_model.VAR.rst",
        "docs/source2/generated/statsmodels.miscmodels.count.PoissonZiGMLE.rst" ] ∧
    (repository.filter isNotebookFile).length = 1 ∧
    var_model_VAR_rst.contains ".. autoclass:: VAR" = true ∧
    count_PoissonZiGMLE_rst.contains ".. autoclass:: PoissonZiGMLE" = true ∧
    var_model_VAR_rst.all (fun l => isRstScaffold "VAR" l) = true ∧
    count_PoissonZiGMLE_rst.all (fun l => isRstScaffold "PoissonZiGMLE" l) = true ∧
    rstMethods "VAR" var_model_VAR_rst =
      [ "fit", "from_formula", "hessian", "information", "initialize",
        "loglike", "predict", "score", "select_order" ] ∧
    rstMethods "PoissonZiGMLE" count_PoissonZiGMLE_rst =
      [ "expandparams", "fit", "from_formula", "hessian", "hessian_factor",
        "information", "initialize", "loglike", "loglikeobs", "nloglike",
        "nloglikeobs", "predict", "reduceparams", "score", "score_obs" ] := by
  decide

/-- C3: each of the three estimation examples follows the same order -
construct a VARMAX model from the endogenous series with an order
parameter, then invoke fit with maxiter and disp options, then request
summary or impulse-response output - and no other interface on the
model or results objects is demonstrated anywhere; the RST stubs
demonstrate no call at all. -/
theorem estimation_examples_follow_construct_fit_show_pattern :
    (codeCells.filter isEstimationCell).length = 3 ∧
    (codeCells.filter isEstimationCell).all
      (fun c => constructFitShow c.source 0) = true ∧
    codeLines.all modelInterfaceOnly = true ∧
    var_model_VAR_rst.all (fun l => !(containsSubstr l "(")) = true ∧
    count_PoissonZiGMLE_rst.all (fun l => !(containsSubstr l "(")) = true := by
  decide

/-- C4: warning lines occur only in recorded stderr outputs, every one
of them reports either ValueWarning or EstimationWarning (there are
four such lines), and no supplied file raises, catches or reproduces an
exception. -/
theorem warnings_only_on_stderr_and_recognized :
    statespace_varmax.all (fun c => c.outputs.all outputWarningsOk) = true ∧
    stderrWarningLines.all warningRecognized = true ∧
    stderrWarningLines.length = 4 ∧
    repository.all
      (fun f => (fileLines f).all (fun l => !definesErrorHandling l)) = true := by
  decide

/-- C5: every code line of the notebook resolves through an external
library namespace (`sm.`, `np.`, `pd.`, `plt.`), through a name bound
to an external result, through `print`, or is a magic or import line;
and no supplied file defines any function or class, hence no estimation
routine is implemented in the supplied files. -/
theorem notebook_calls_resolve_through_external_libraries :
    codeLines.all resolvesExternally = true ∧
    repoDefinesNoRoutine = true := by
  decide

/-- C6: the notebook markdown does state the external fit default
`maxiter=50` and that a warning is issued for VARMA(p,q)
specifications - the assertions the claim notes - but the supplied
files define no function or class at all, so none of these statements
asserts a behavior of code present in the supplied files: no testable
invariant originates from the documentation text or the stub
listings. -/
theorem documentation_asserts_no_checkable_behavior_of_supplied_code :
    markdownLines.any assertsFitDefault = true ∧
    markdownLines.any assertsWarningIssued = true ∧
    repoDefinesNoRoutine = true := by
  decide

/-- C7: the three estimation examples pass orders (2,0), (0,2) and
(1,1), and a cell's recorded stderr mentions EstimationWarning exactly
when both order components are positive, while every estimation cell's
stderr mentions the frequency-inference ValueWarning. -/
theorem estimation_warning_iff_mixed_order :
    (codeCells.filter isEstimationCell).map cellOrder =
      [some (2, 0), some (0, 2), some (1, 1)] ∧
    (codeCells.filter isEstimationCell).all (fun c =>
      match cellOrder c with
      | some (p, q) =>
        (cellHasEstimationWarning c == (p != 0 && q != 0)) &&
        cellHasValueWarning c
      | none => false) = true := by
  decide

/-- C8: both RST stubs list `endog_names` and `exog_names` among their
class's properties; the VAR stub additionally lists `y` and the
PoissonZiGMLE stub lists nothing else. -/
theorem stub_property_listings :
    rstProperties "VAR" var_model_VAR_rst =
      ["endog_names", "exog_names", "y"] ∧
    rstProperties "PoissonZiGMLE" count_PoissonZiGMLE_rst =
      ["endog_names", "exog_names"] := by
  decide

/-- C9: the notebook's seven code cells carry execution counts exactly
1 through 7, strictly increasing in document order with no gaps and no
null counts. -/
theorem code_cells_record_single_execution :
    codeCells.map (fun c => c.executionCount) =
      [some 1, some 2, some 3, some 4, some 5, some 6, some 7] := by
  decide

end StatsmodelsDocs
